import Mathlib

/-!
Shallow embedding of `src/dummycdd.c` (the Simple-CDev character device
driver) and proofs about its write-ingestion path, session counter,
registration lifecycle and teardown.

Modelling conventions:
* The holding buffer `static char message[256]` is a function
  `Fin 256 → Nat` (one `Nat` per byte slot; byte values are opaque
  to every property proved here).
* The user-space source buffer of `dev_write` is a function `Nat → Nat`
  (byte at each offset).
* `copy_from_user(dst, src, n)` may in general copy only a prefix; its
  return value (the number of bytes NOT copied) is ignored by the driver.
  The loop embedding is therefore parameterised by an oracle
  `unc : Nat → Nat` giving that return value at each loop offset.
* `static int numberOpens` is a 32-bit signed counter; the kernel is built
  with wrap-around semantics for signed overflow, so the increment is
  modelled with an explicit two's-complement wrap at width 32.
* The init/exit lifecycle is modelled as the trace of acquire/release
  events on the three OS resources (device-number allocation, device
  class, device node), driven by the outcomes of the three fallible
  kernel calls (`register_chrdev`, `class_create`, `device_create`).
-/

/-- Contents of the holding buffer `message`: the byte stored in each of
its `sizeof(message) = 256` slots (`static char message[256]`,
dummycdd.c line 26).  256 is the chunk capacity the spec calls `C`. -/
abbrev Msg : Type := Fin 256 → Nat

/-- Effect of `copy_from_user(message, buffer + src, n)` on the holding
buffer (dummycdd.c lines 131 and 134): slots `0 .. n-1` receive
`buffer[src .. src+n-1]`; every other slot keeps its previous value. -/
def copy_from_user (msg : Msg) (buffer : Nat → Nat) (src n : Nat) : Msg :=
  fun j => if j.val < n then buffer (src + j.val) else msg j

/-- One iteration of the `dev_write` loop, as observed through its
`printk`: the source offset `i` of the iteration, the number of bytes
actually copied into the holding buffer, and the holding buffer's full
contents at the emission point (dummycdd.c line 136). -/
structure Chunk where
  offset : Nat
  copied : Nat
  emitted : Msg

/-- The loop of `dev_write` (dummycdd.c lines 128-137):
`for(; i < len; i += sizeof(message))` with
`remainder = len - i`, copying `sizeof(message)` bytes when
`remainder > sizeof(message)` and `remainder` bytes otherwise, then
emitting the holding buffer.  `unc i` is the value `copy_from_user`
returns at offset `i` (bytes left uncopied; `0` on full success); the
driver ignores it, so only the copied prefix length `req - unc i`
affects the buffer.  `fuel` is an upper bound on the remaining
iterations used to phrase the recursion structurally; the entry point
passes `len`, which always suffices because the loop guard `i < len`
stops the recursion and `i` grows by `256 ≥ 1` each step. -/
def devWriteGo (unc : Nat → Nat) (buffer : Nat → Nat) (len : Nat) :
    Nat → Nat → Msg → Msg × List Chunk
  | 0, _, msg => (msg, [])
  | fuel + 1, i, msg =>
    if i < len then
      let remainder := len - i
      let req := if remainder > 256 then 256 else remainder
      let copied := req - unc i
      let msg2 := copy_from_user msg buffer i copied
      let rest := devWriteGo unc buffer len fuel (i + 256) msg2
      (rest.1, ⟨i, copied, msg2⟩ :: rest.2)
    else (msg, [])

/-- File-scope mutable state of the driver that the file operations
touch: `device_name` (line 31), `numberOpens` (line 27) and the holding
buffer `message` (line 26). -/
structure DriverState where
  device_name : String
  numberOpens : Int
  message : Msg

/-- Two's-complement wrap of a 32-bit signed `int` value (the kernel is
compiled with defined wrap-around on signed overflow). -/
def wrap32 (x : Int) : Int := (x + 2 ^ 31) % 2 ^ 32 - 2 ^ 31

/-- `dev_open` (dummycdd.c lines 110-114): increments `numberOpens`
(a 32-bit `int`) and returns 0. -/
def dev_open (s : DriverState) : DriverState × Int :=
  ({ s with numberOpens := wrap32 (s.numberOpens + 1) }, 0)

/-- `dev_release` (dummycdd.c lines 146-149): logs and returns 0; no
state change. -/
def dev_release (s : DriverState) : DriverState × Int :=
  (s, 0)

/-- `dev_write` (dummycdd.c lines 124-139) with an explicit
`copy_from_user` outcome oracle `unc`: runs the chunking loop over the
holding buffer and returns the updated state, the emitted chunks, and
the return value `len` (line 138, returned unconditionally). -/
def dev_writeO (unc : Nat → Nat) (s : DriverState) (buffer : Nat → Nat) (len : Nat) :
    DriverState × List Chunk × Nat :=
  let g := devWriteGo unc buffer len len 0 s.message
  ({ s with message := g.1 }, g.2, len)

/-- `dev_write` on the path where every `copy_from_user` call fully
succeeds (returns 0 bytes uncopied). -/
def dev_write (s : DriverState) (buffer : Nat → Nat) (len : Nat) :
    DriverState × List Chunk × Nat :=
  dev_writeO (fun _ => 0) s buffer len

/-- Name derivation of `dummycdd_init` (dummycdd.c line 59):
`sprintf(device_name, "dummycdd%d", id)`. -/
def deviceName (id : Int) : String := "dummycdd" ++ toString id

/-- Driver state right after module load: the derived name, `numberOpens = 0`
(line 27) and a zeroed holding buffer (`message[256] = {0}`, line 26). -/
def initState (id : Int) : DriverState :=
  { device_name := deviceName id, numberOpens := 0, message := fun _ => 0 }

/-- State after `k` successive `dev_open` calls starting from `s`. -/
def openIter (s : DriverState) : Nat → DriverState
  | 0 => s
  | k + 1 => (dev_open (openIter s k)).1

/-- The three OS resources the registration lifecycle owns: the
device-number allocation, the device class record, and the device node. -/
inductive Resource
  | number
  | cls
  | node
  deriving DecidableEq

/-- An acquisition or release of one registration resource. -/
inductive REvent
  | acquire (r : Resource)
  | release (r : Resource)
  deriving DecidableEq

/-- Error taxonomy of initialization: which of the three phases failed.
In the C source the corresponding returns are the negative value of
`register_chrdev` (line 67) and `PTR_ERR` of the failed pointer
(lines 76 and 87). -/
inductive InitError
  | NumberAllocationFailed
  | ClassCreationFailed
  | DeviceCreationFailed
  deriving DecidableEq

/-- `dummycdd_init` (dummycdd.c lines 58-91), driven by the outcomes of
its three fallible kernel calls: `major` is what `register_chrdev`
returns (an allocated major number when nonnegative, an error when
negative); `classErr`/`devErr` are `some e` when `class_create` /
`device_create` return an error pointer with code `e` and `none` when
they succeed.  The result is the returned value (abstracted to the
failing phase) together with the trace of resource acquisitions and
releases the call performs, in program order:
phase-1 failure returns at line 67 with nothing acquired; phase-2
failure calls `unregister_chrdev` (line 74) before returning; phase-3
failure calls `class_destroy` then `unregister_chrdev` (lines 83-84)
before returning; on success all three resources stay acquired. -/
def dummycdd_init (major : Int) (classErr devErr : Option Int) :
    Except InitError Unit × List REvent :=
  if major < 0 then
    (Except.error InitError.NumberAllocationFailed, [])
  else
    match classErr with
    | some _ =>
      (Except.error InitError.ClassCreationFailed,
        [REvent.acquire Resource.number, REvent.release Resource.number])
    | none =>
      match devErr with
      | some _ =>
        (Except.error InitError.DeviceCreationFailed,
          [REvent.acquire Resource.number, REvent.acquire Resource.cls,
            REvent.release Resource.cls, REvent.release Resource.number])
      | none =>
        (Except.ok (),
          [REvent.acquire Resource.number, REvent.acquire Resource.cls,
            REvent.acquire Resource.node])

/-- The four kernel calls of `dummycdd_exit` (dummycdd.c lines 98-101),
in source order. -/
inductive KCall
  | device_destroy
  | class_unregister
  | class_destroy
  | unregister_chrdev
  deriving DecidableEq

/-- Body of `dummycdd_exit`: `device_destroy`, `class_unregister`,
`class_destroy`, `unregister_chrdev`, in that order. -/
def dummycdd_exit_calls : List KCall :=
  [KCall.device_destroy, KCall.class_unregister, KCall.class_destroy,
    KCall.unregister_chrdev]

/-- The resource each teardown call releases: `device_destroy` removes
the device node created by `device_create`; `class_unregister`
unregisters the device class that `class_create` registered
(`class_create` allocates and registers the class); `class_destroy` is
a null/error guard followed by `class_unregister`, so it too
unregisters the class; `unregister_chrdev` releases the device-number
allocation of `register_chrdev`.  The source's own comments mark both
line 99 ("unregister the device class") and line 100 ("remove the
device class") as operations on the class. -/
def releasesOf : KCall → Resource
  | KCall.device_destroy => Resource.node
  | KCall.class_unregister => Resource.cls
  | KCall.class_destroy => Resource.cls
  | KCall.unregister_chrdev => Resource.number

/-- The sequence of resource releases `dummycdd_exit` performs. -/
def exitReleases : List Resource := dummycdd_exit_calls.map releasesOf

/-- The holding-buffer contents immediately before the copy of the LAST
chunk in `cs`, when the buffer held `m` before the first chunk's copy:
with no previous chunk it is `m`; otherwise it is the previous chunk's
emitted contents (each emission is the buffer right after that chunk's
copy, and nothing else writes the buffer between iterations). -/
def prevMsg (m : Msg) : List Chunk → Msg
  | [] => m
  | [_] => m
  | c :: cs => prevMsg c.emitted cs

/-! ## Helper lemmas about the write loop -/

theorem devWriteGo_stop (unc buffer : Nat → Nat) (len fuel i : Nat) (msg : Msg)
    (h : ¬ i < len) : devWriteGo unc buffer len fuel i msg = (msg, []) := by
  cases fuel <;> simp [devWriteGo, h]

theorem devWriteGo_step (unc buffer : Nat → Nat) (len fuel i : Nat) (msg : Msg)
    (h : i < len) :
    devWriteGo unc buffer len (fuel + 1) i msg =
      ((devWriteGo unc buffer len fuel (i + 256)
          (copy_from_user msg buffer i
            ((if len - i > 256 then 256 else len - i) - unc i))).1,
        ⟨i, (if len - i > 256 then 256 else len - i) - unc i,
          copy_from_user msg buffer i
            ((if len - i > 256 then 256 else len - i) - unc i)⟩ ::
        (devWriteGo unc buffer len fuel (i + 256)
          (copy_from_user msg buffer i
            ((if len - i > 256 then 256 else len - i) - unc i))).2) := by
  simp [devWriteGo, h]

theorem prevMsg_cons (m : Msg) (c d : Chunk) (cs : List Chunk) :
    prevMsg m (c :: d :: cs) = prevMsg c.emitted (d :: cs) := by
  simp [prevMsg]

/-! ## Claims -/

/-- C2: for every input length and every outcome of the underlying
`copy_from_user` calls (the oracle `unc`), `dev_write` returns exactly
the supplied length: never an error value, never a short count. -/
theorem C2_write_always_full_success (unc buffer : Nat → Nat) (s : DriverState)
    (len : Nat) : (dev_writeO unc s buffer len).2.2 = len := rfl

/-- C9: `dev_open` and `dev_release` return 0 on every call, from every
driver state; neither has an error path. -/
theorem C9_open_release_always_zero :
    (∀ s : DriverState, (dev_open s).2 = 0) ∧
    (∀ s : DriverState, (dev_release s).2 = 0) :=
  ⟨fun _ => rfl, fun _ => rfl⟩

/-- C10: a write of length 0 runs zero loop iterations: it emits no
chunk, leaves the whole driver state (holding buffer included)
unchanged, and returns 0. -/
theorem C10_zero_length_write (buffer : Nat → Nat) (s : DriverState) :
    dev_write s buffer 0 = (s, [], 0) := rfl

/-- C8: the derived device name is the base name followed by the decimal
rendering of the id (`"dummycdd1"` for id 1, `"dummycdd42"` for id 42);
it is set in the initial state and none of the file operations ever
changes it. -/
theorem C8_name_derivation :
    deviceName 1 = "dummycdd1" ∧ deviceName 42 = "dummycdd42" ∧
    (∀ id : Int, (initState id).device_name = deviceName id) ∧
    (∀ s : DriverState, (dev_open s).1.device_name = s.device_name) ∧
    (∀ s : DriverState, (dev_release s).1.device_name = s.device_name) ∧
    (∀ (unc buffer : Nat → Nat) (len : Nat) (s : DriverState),
      (dev_writeO unc s buffer len).1.device_name = s.device_name) :=
  ⟨rfl, rfl, fun _ => rfl, fun _ => rfl, fun _ => rfl, fun _ _ _ _ => rfl⟩

/-- C4: if `class_create` fails (for any successfully allocated major
number and any error code), init releases the number allocation and
returns `ClassCreationFailed`, having acquired no class and no node;
and if `register_chrdev` itself fails (any negative return), init
returns `NumberAllocationFailed` at once with an empty event trace. -/
theorem C4_class_failure_rollback (m k : Nat) (e : Int) (ce de : Option Int) :
    (dummycdd_init (m : Int) (some e) de =
      (Except.error InitError.ClassCreationFailed,
        [REvent.acquire Resource.number, REvent.release Resource.number])) ∧
    (∀ r : Resource,
      (dummycdd_init (m : Int) (some e) de).2.count (REvent.acquire r) =
        (dummycdd_init (m : Int) (some e) de).2.count (REvent.release r)) ∧
    ((dummycdd_init (m : Int) (some e) de).2.count (REvent.acquire Resource.cls) = 0) ∧
    ((dummycdd_init (m : Int) (some e) de).2.count (REvent.acquire Resource.node) = 0) ∧
    (dummycdd_init (-(1 + (k : Int))) ce de =
      (Except.error InitError.NumberAllocationFailed, [])) := by
  have hm : ¬ ((m : Int) < 0) := by omega
  have hk : (-(1 + (k : Int))) < 0 := by omega
  have h1 : dummycdd_init (m : Int) (some e) de =
      (Except.error InitError.ClassCreationFailed,
        [REvent.acquire Resource.number, REvent.release Resource.number]) := by
    simp only [dummycdd_init, if_neg hm]
  refine ⟨h1, ?_, ?_, ?_, ?_⟩
  · intro r
    rw [h1]
    cases r <;> decide
  · rw [h1]
    decide
  · rw [h1]
    decide
  · simp only [dummycdd_init, if_pos hk]

/-- C3: if `device_create` fails after the first two phases succeeded,
init releases the class and then the number allocation and returns
`DeviceCreationFailed`; the trace leaves every resource with as many
releases as acquisitions, i.e. the registration state after the failed
init equals the state before it. -/
theorem C3_device_failure_full_rollback (m : Nat) (e : Int) :
    (dummycdd_init (m : Int) none (some e) =
      (Except.error InitError.DeviceCreationFailed,
        [REvent.acquire Resource.number, REvent.acquire Resource.cls,
          REvent.release Resource.cls, REvent.release Resource.number])) ∧
    (∀ r : Resource,
      (dummycdd_init (m : Int) none (some e)).2.count (REvent.acquire r) =
        (dummycdd_init (m : Int) none (some e)).2.count (REvent.release r)) := by
  have hm : ¬ ((m : Int) < 0) := by omega
  have h1 : dummycdd_init (m : Int) none (some e) =
      (Except.error InitError.DeviceCreationFailed,
        [REvent.acquire Resource.number, REvent.acquire Resource.cls,
          REvent.release Resource.cls, REvent.release Resource.number]) := by
    simp only [dummycdd_init, if_neg hm]
  refine ⟨h1, ?_⟩
  intro r
  rw [h1]
  cases r <;> decide

/-- C5 (code bug): the teardown path does NOT release each resource
exactly once.  A fully successful init acquires each of number, class
and node once, but `dummycdd_exit` calls `class_unregister` (line 99)
and then `class_destroy` (line 100), and `class_destroy` is
`class_unregister` behind a guard — so the exit release trace is node,
class, class, number: the device class is released twice, against the
claimed (and spec-intended) exactly-once node → class → number
teardown. -/
theorem C5_exit_releases_class_twice :
    (∀ m : Nat, (dummycdd_init (m : Int) none none).2 =
      [REvent.acquire Resource.number, REvent.acquire Resource.cls,
        REvent.acquire Resource.node]) ∧
    exitReleases = [Resource.node, Resource.cls, Resource.cls, Resource.number] ∧
    exitReleases.count Resource.cls = 2 ∧
    exitReleases.count Resource.node = 1 ∧
    exitReleases.count Resource.number = 1 := by
  refine ⟨?_, rfl, rfl, rfl, rfl⟩
  intro m
  have hm : ¬ ((m : Int) < 0) := by omega
  simp only [dummycdd_init, if_neg hm]

theorem openIter_succ (s : DriverState) (k : Nat) :
    openIter s (k + 1) = (dev_open (openIter s k)).1 := rfl

theorem wrap32_eq_self (x : Int) (h0 : 0 ≤ x) (h1 : x < 2 ^ 31) : wrap32 x = x := by
  have e31 : (2 : Int) ^ 31 = 2147483648 := by norm_num
  have e32 : (2 : Int) ^ 32 = 4294967296 := by norm_num
  unfold wrap32
  rw [e31, e32]
  rw [e31] at h1
  omega

theorem openIter_numberOpens (id : Int) :
    ∀ k : Nat, k ≤ 2147483647 →
      (openIter (initState id) k).numberOpens = (k : Int) := by
  intro k
  induction k with
  | zero => intro _; rfl
  | succ k ih =>
    intro h
    have hk : (openIter (initState id) k).numberOpens = (k : Int) := ih (by omega)
    show (dev_open (openIter (initState id) k)).1.numberOpens = ((k + 1 : Nat) : Int)
    simp only [dev_open, hk]
    rw [wrap32_eq_self ((k : Int) + 1) (by omega) (by norm_num; omega)]
    push_cast
    ring

/-- C7 (amended): the session counter is a 32-bit signed `int`, so the
claim holds up to the 2^31 - 1 first opens: for every k < 2^31, a run of
k sequential `dev_open` calls from the initial state leaves the counter
at k (so the k-th open logged the value k), and `dev_release` never
changes the counter.  Beyond that bound the counter wraps (see the
counterexample theorem). -/
theorem C7_session_counter (id : Int) (k : Fin (2 ^ 31)) :
    (openIter (initState id) k.val).numberOpens = (k.val : Int) ∧
    (∀ s : DriverState, (dev_release s).1.numberOpens = s.numberOpens) := by
  refine ⟨?_, fun _ => rfl⟩
  apply openIter_numberOpens
  have hlt := k.isLt
  norm_num at hlt
  omega

/-- C7 (counterexample): after 2^31 sequential `dev_open` calls from the
initial state the counter holds -2^31, not 2^31 as the unbounded-counter
claim requires: the 32-bit `int` wraps on the 2^31-th open. -/
theorem C7_session_counter_wraps :
    (openIter (initState 1) (2 ^ 31)).numberOpens = -(2 ^ 31) ∧
    (openIter (initState 1) (2 ^ 31)).numberOpens ≠ ((2 ^ 31 : Nat) : Int) := by
  have h1 : (openIter (initState 1) 2147483647).numberOpens = (2147483647 : Int) :=
    openIter_numberOpens 1 2147483647 (by norm_num)
  have h2 : (2 ^ 31 : Nat) = 2147483647 + 1 := by norm_num
  have h3 : (openIter (initState 1) (2 ^ 31 : Nat)).numberOpens =
      wrap32 ((2147483647 : Int) + 1) := by
    rw [h2, openIter_succ]
    simp only [dev_open, h1]
  have h4 : wrap32 ((2147483647 : Int) + 1) = -(2 ^ 31) := by
    unfold wrap32
    norm_num
  refine ⟨by rw [h3, h4], by rw [h3, h4]; norm_num⟩

theorem devWriteGo_step_lit (unc buffer : Nat → Nat) (len fuel1 fuel i : Nat)
    (msg : Msg) (hf : fuel1 = fuel + 1) (h : i < len) :
    devWriteGo unc buffer len fuel1 i msg =
      ((devWriteGo unc buffer len fuel (i + 256)
          (copy_from_user msg buffer i
            ((if len - i > 256 then 256 else len - i) - unc i))).1,
        ⟨i, (if len - i > 256 then 256 else len - i) - unc i,
          copy_from_user msg buffer i
            ((if len - i > 256 then 256 else len - i) - unc i)⟩ ::
        (devWriteGo unc buffer len fuel (i + 256)
          (copy_from_user msg buffer i
            ((if len - i > 256 then 256 else len - i) - unc i))).2) := by
  subst hf
  exact devWriteGo_step unc buffer len fuel i msg h

/-- C1: a write of length 2C + 5 = 517 (C = sizeof(message) = 256) runs
the loop exactly 3 times: the first two iterations copy 256 bytes at
source offsets 0 and 256, the third copies the remaining 5 bytes at
offset 512, and the call returns 517. -/
theorem C1_chunking_2C_plus_5 (buffer : Nat → Nat) (s : DriverState) :
    ((dev_write s buffer (2 * 256 + 5)).2.1.map Chunk.offset = [0, 256, 2 * 256]) ∧
    ((dev_write s buffer (2 * 256 + 5)).2.1.map Chunk.copied = [256, 256, 5]) ∧
    ((dev_write s buffer (2 * 256 + 5)).2.2 = 2 * 256 + 5) := by
  have e1 := devWriteGo_step_lit (fun _ => 0) buffer 517 517 516 0 s.message
    (by norm_num) (by norm_num)
  norm_num at e1
  have e2 := devWriteGo_step_lit (fun _ => 0) buffer 517 516 515 256
    (copy_from_user s.message buffer 0 256) (by norm_num) (by norm_num)
  norm_num at e2
  have e3 := devWriteGo_step_lit (fun _ => 0) buffer 517 515 514 512
    (copy_from_user (copy_from_user s.message buffer 0 256) buffer 256 256)
    (by norm_num) (by norm_num)
  norm_num at e3
  have e4 := devWriteGo_stop (fun _ => 0) buffer 517 514 768
    (copy_from_user (copy_from_user (copy_from_user s.message buffer 0 256)
      buffer 256 256) buffer 512 5) (by norm_num)
  simp only [dev_write, dev_writeO]
  norm_num
  rw [e1, e2, e3, e4]
  simp

theorem devWriteGo_last (buffer : Nat → Nat) (len : Nat) (hlen : 0 < len % 256) :
    ∀ (fuel i : Nat) (msg : Msg), i % 256 = 0 → i < len → len ≤ i + fuel →
      ((devWriteGo (fun _ => 0) buffer len fuel i msg).2.getLast? =
        some ⟨len - len % 256, len % 256,
          copy_from_user
            (prevMsg msg (devWriteGo (fun _ => 0) buffer len fuel i msg).2)
            buffer (len - len % 256) (len % 256)⟩) ∧
      ((devWriteGo (fun _ => 0) buffer len fuel i msg).1 =
        copy_from_user
          (prevMsg msg (devWriteGo (fun _ => 0) buffer len fuel i msg).2)
          buffer (len - len % 256) (len % 256)) := by
  intro fuel
  induction fuel with
  | zero =>
    intro i msg h0 h1 h2
    omega
  | succ fuel ih =>
    intro i msg h0 h1 h2
    have hrw := devWriteGo_step (fun _ => 0) buffer len fuel i msg h1
    by_cases hc : len - i > 256
    · rw [if_pos hc] at hrw
      norm_num at hrw
      obtain ⟨hA, hB⟩ := ih (i + 256) (copy_from_user msg buffer i 256)
        (by omega) (by omega) (by omega)
      rw [hrw]
      dsimp only
      have hne : (devWriteGo (fun _ => 0) buffer len fuel (i + 256)
          (copy_from_user msg buffer i 256)).2 ≠ [] := by
        intro hnil
        rw [hnil] at hA
        simp at hA
      obtain ⟨d, ds, hds⟩ := List.exists_cons_of_ne_nil hne
      rw [hds] at hA hB ⊢
      refine ⟨?_, ?_⟩
      · rw [List.getLast?_cons_cons, prevMsg_cons]
        exact hA
      · rw [prevMsg_cons]
        exact hB
    · rw [if_neg hc] at hrw
      norm_num at hrw
      have hstop := devWriteGo_stop (fun _ => 0) buffer len fuel (i + 256)
        (copy_from_user msg buffer i (len - i)) (by omega)
      rw [hstop] at hrw
      rw [hrw]
      dsimp only
      have hi : i = len - len % 256 := by omega
      have hr : len - i = len % 256 := by omega
      rw [hr, hi]
      exact ⟨rfl, rfl⟩

/-- C6: for every write whose final chunk is short (total length
256q + rr with 0 < rr < 256, so the last loop iteration copies only
rr bytes), the last emitted chunk sits at source offset 256q with
copied count rr, its bytes below rr are fresh from the source buffer,
its bytes at offset rr and beyond are exactly the holding buffer's
contents from just before that final copy (the previous chunk's
emission, or the pre-write buffer when this is the only chunk), and
the emission is the buffer's full current contents (it equals the
final holding-buffer state, stale tail included). -/
theorem C6_stale_tail (q : Nat) (r : Fin 255) (buffer : Nat → Nat) (s : DriverState) :
    ∃ c : Chunk,
      (dev_write s buffer (256 * q + (r.val + 1))).2.1.getLast? = some c ∧
      c.offset = 256 * q ∧
      c.copied = r.val + 1 ∧
      (∀ j : Fin 256,
        c.emitted j =
          if j.val < r.val + 1 then buffer (256 * q + j.val)
          else prevMsg s.message (dev_write s buffer (256 * q + (r.val + 1))).2.1 j) ∧
      (dev_write s buffer (256 * q + (r.val + 1))).1.message = c.emitted := by
  have hr := r.isLt
  have hmod : (256 * q + (r.val + 1)) % 256 = r.val + 1 := by omega
  obtain ⟨hA, hB⟩ := devWriteGo_last buffer (256 * q + (r.val + 1)) (by omega)
    (256 * q + (r.val + 1)) 0 s.message (by omega) (by omega) (by omega)
  rw [hmod, Nat.add_sub_cancel] at hA hB
  simp only [dev_write, dev_writeO]
  refine ⟨_, hA, rfl, rfl, ?_, hB⟩
  intro j
  rfl
